import Mathlib

/-!
Verification of the adaptive-streaming and self-healing control plane of the
`discord-video-streamer` repository, against a shallow Lean embedding of its
TypeScript source.

Conventions used throughout the embedding:
* JavaScript numbers that only ever hold integers are modelled as `Nat`
  (or `Int` where a subtraction may matter); genuinely fractional numbers
  (frame rates, encoding speed, quality scores, multipliers) are modelled
  as `ℚ`.  All constants appearing in the source are small decimals
  (`0.1`, `1.3`, `1.6`, …) whose floating-point products at the values the
  code can produce round exactly as their rational counterparts, so `ℚ`
  arithmetic is faithful here.
* `Math.round` is `jsRound` below (floor of `x + 1/2`, which is what
  JavaScript's `Math.round` computes for every input).
* `Date.now()` is passed in explicitly as a `now : Nat` parameter and is
  held constant within a single call; no claim in scope depends on the
  clock advancing during one call.
-/

/-- JavaScript `Math.round`: round half toward positive infinity. -/
def jsRound (q : ℚ) : ℤ := ⌊q + 1/2⌋

/-! ### Stream analysis (`src/stream-analysis.ts`)

`StreamAnalysis` is the probe result consumed by `generateOptimalSettings`
(fields `width`, `height`, `fps`; the optional bitrate/codec/duration fields
are never read by `generateOptimalSettings` and are omitted). -/

structure StreamAnalysis where
  width : Nat
  height : Nat
  fps : ℚ
deriving Repr, DecidableEq

structure OptimalSettings where
  width : Nat
  height : Nat
  fps : ℚ
  bitrateKbps : ℤ
  maxBitrateKbps : ℤ
deriving Repr, DecidableEq

/-- Embedding of `generateOptimalSettings` (src/stream-analysis.ts lines
95–182).  Each step mirrors the source in order: resolution capping,
floor-to-even, fps bucketing with a ceiling of 60, pixel-count bitrate
tiers, fps multiplier, and `maxBitrate = Math.round(target * 1.3)`. -/
def generateOptimalSettings (analysis : StreamAnalysis) (hardwareAccel : Bool) :
    OptimalSettings :=
  let width := analysis.width
  let height := analysis.height
  let fps := analysis.fps
  -- Cap maximum resolution to 1440p for all streams above 1440p
  let targetWidth := if width > 2560 || height > 1440 then 2560 else width
  let targetHeight := if width > 2560 || height > 1440 then 1440 else height
  -- Ensure even dimensions for video encoding
  let targetWidth := targetWidth / 2 * 2
  let targetHeight := targetHeight / 2 * 2
  -- Preserve high framerates for better motion
  let targetFps := min fps 60
  let targetFps : ℚ :=
    if targetFps > 50 then 60
    else if targetFps > 40 then 50
    else if targetFps > 30 then targetFps   -- keep original if between 30-40
    else if targetFps > 25 then 30
    else 25
  -- Calculate bitrate based on resolution and framerate
  let pixelCount := targetWidth * targetHeight
  let baseBitrate : ℚ :=
    if pixelCount ≥ 3686400 then (if hardwareAccel then 6000 else 4000)
    else if pixelCount ≥ 2073600 then (if hardwareAccel then 4000 else 3000)
    else if pixelCount ≥ 921600 then (if hardwareAccel then 2500 else 2000)
    else (if hardwareAccel then 1500 else 1000)
  -- Adjust for framerate - higher FPS needs more bitrate
  let fpsMultiplier : ℚ :=
    if targetFps ≥ 50 then 8/5          -- 1.6
    else if targetFps > 30 then 13/10   -- 1.3
    else 1
  let targetBitrate := jsRound (baseBitrate * fpsMultiplier)
  let maxBitrate := jsRound ((targetBitrate : ℚ) * (13/10))
  { width := targetWidth
    height := targetHeight
    fps := targetFps
    bitrateKbps := targetBitrate
    maxBitrateKbps := maxBitrate }

/-! ### StreamSwitcher (`src/index.ts`, class `StreamSwitcher`)

`switchTo` (lines 622–916) is modelled by its externally observable
process/sink events, in source order.  A running FFmpeg command is
identified by a `Nat`.  The probe/settings phase (lines 628–805) touches no
switcher state and emits none of the events the claims speak about, so the
model starts at `command.run()`.  The `startOk` flag records whether
`command.run()` (line 848) succeeds or throws; on a throw `switchTo`
rethrows (line 855) before any of the teardown/bookkeeping statements of
lines 858–915 execute. -/

inductive SwitchEvent where
  /-- `command.run()` — the new FFmpeg process is started (line 848). -/
  | runNew (id : Nat)
  /-- `oldCommand.kill("SIGTERM")` — the old process receives its
  termination signal (line 865). -/
  | killOld (id : Nat)
  /-- `this.currentCommand = command` (line 879). -/
  | setCurrent (id : Nat)
  /-- `newOutput.on("data", chunk => this.mainOutput.write(chunk))` — the
  new process's output begins being forwarded into the single downstream
  sink (lines 883–902). -/
  | wireSink (id : Nat)
deriving DecidableEq

structure SwitcherState where
  /-- `this.currentCommand` (null or a live FFmpeg command). -/
  currentCommand : Option Nat
deriving DecidableEq

structure SwitchOutcome where
  /-- `true` when `switchTo` resolves, `false` when it rejects. -/
  ok : Bool
  state : SwitcherState
  events : List SwitchEvent
deriving DecidableEq

/-- Embedding of `StreamSwitcher.switchTo` (src/index.ts lines 846–916),
restricted to its observable event order and its mutation of
`currentCommand`. -/
def StreamSwitcher.switchTo (st : SwitcherState) (newId : Nat) (startOk : Bool) :
    SwitchOutcome :=
  if startOk then
    -- line 848: command.run()
    let startEvents := [SwitchEvent.runNew newId]
    -- lines 859–876: if a previous command exists, SIGTERM it and drain
    let killEvents :=
      match st.currentCommand with
      | some oldId => [SwitchEvent.killOld oldId]
      | none => []
    -- line 879: currentCommand := command; lines 883–902: wire forwarding
    { ok := true
      state := { currentCommand := some newId }
      events := startEvents ++ killEvents ++
        [SwitchEvent.setCurrent newId, SwitchEvent.wireSink newId] }
  else
    -- lines 850–856: run() threw; switchTo rethrows with no state change
    { ok := false, state := st, events := [] }

/-- Event `e1` occurs strictly before event `e2` in the trace. -/
@[reducible]
def occursBefore (events : List SwitchEvent) (e1 e2 : SwitchEvent) : Prop :=
  events.indexOf e1 < events.indexOf e2

/-! ### Stream quality scoring (`StreamMonitor.calculateStreamHealth`)

From the unnamed source file defining `StreamMonitor` (part_005,
lines 531–649).  Only the metric fields that `calculateStreamHealth` reads
are modelled; the remaining `StreamQualityMetrics` fields (url, timestamps,
counters, …) do not influence the score or status.  The `issues` and
`recommendations` string lists of the result are log text and are omitted.
`this.isInStartupPhase` is passed explicitly. -/

inductive BufferHealth where
  | good
  | warning
  | critical
deriving DecidableEq

structure StreamQualityMetrics where
  frameRate : ℚ
  bitrate : ℚ
  droppedFrames : ℚ
  encodingSpeed : ℚ
  bufferHealth : BufferHealth
  cpuUsage : ℚ
  gpuUsage : Option ℚ
deriving DecidableEq

structure QualityTier where
  fps : ℚ
  bitrate : ℚ
  droppedFrames : ℚ
  speed : ℚ
deriving DecidableEq

structure QualityThresholds where
  excellent : QualityTier
  good : QualityTier
  degraded : QualityTier
  poor : QualityTier
deriving DecidableEq

/-- The readonly `qualityThresholds` table (part_005 lines 84–89). -/
def qualityThresholds : QualityThresholds where
  excellent := ⟨58, 8000, 0, 98/100⟩
  good := ⟨55, 6000, 5, 95/100⟩
  degraded := ⟨45, 4000, 20, 9/10⟩
  poor := ⟨30, 2000, 50, 8/10⟩

/-- Frame rate analysis block (part_005 lines 545–557). -/
def fpsPenalty (m : StreamQualityMetrics) (isInStartupPhase : Bool) : ℚ :=
  let startupMultiplier : ℚ := if isInStartupPhase then 1/10 else 1
  let startupFpsThreshold : ℚ := if isInStartupPhase then 5 else qualityThresholds.poor.fps
  if m.frameRate < startupFpsThreshold then
    (if isInStartupPhase then 10 else 30) * startupMultiplier
  else if m.frameRate < qualityThresholds.degraded.fps ∧ isInStartupPhase = false then 15
  else 0

/-- Bitrate analysis block (part_005 lines 559–573). -/
def bitratePenalty (m : StreamQualityMetrics) (isInStartupPhase : Bool) : ℚ :=
  let startupMultiplier : ℚ := if isInStartupPhase then 1/10 else 1
  let startupBitrateThreshold : ℚ :=
    if isInStartupPhase then 100 else qualityThresholds.poor.bitrate
  if m.bitrate < startupBitrateThreshold then
    (if isInStartupPhase then 5 else 25) * startupMultiplier
  else if m.bitrate < qualityThresholds.degraded.bitrate ∧ isInStartupPhase = false then 10
  else 0

/-- Dropped frames analysis block (part_005 lines 575–583); it applies no
startup leniency. -/
def droppedFramesPenalty (m : StreamQualityMetrics) : ℚ :=
  if m.droppedFrames > qualityThresholds.poor.droppedFrames then 20
  else if m.droppedFrames > qualityThresholds.degraded.droppedFrames then 10
  else 0

/-- Encoding speed analysis block (part_005 lines 585–600). -/
def speedPenalty (m : StreamQualityMetrics) (isInStartupPhase : Bool) : ℚ :=
  let startupMultiplier : ℚ := if isInStartupPhase then 1/10 else 1
  let startupSpeedThreshold : ℚ :=
    if isInStartupPhase then 1/2 else qualityThresholds.poor.speed
  if m.encodingSpeed < startupSpeedThreshold then
    (if isInStartupPhase then 5 else 25) * startupMultiplier
  else if m.encodingSpeed < qualityThresholds.degraded.speed ∧ isInStartupPhase = false then 10
  else 0

/-- Buffer health block (part_005 lines 602–613). -/
def bufferPenalty (m : StreamQualityMetrics) (isInStartupPhase : Bool) : ℚ :=
  let startupMultiplier : ℚ := if isInStartupPhase then 1/10 else 1
  if m.bufferHealth = BufferHealth.critical then
    (if isInStartupPhase then 5 else 30) * startupMultiplier
  else if m.bufferHealth = BufferHealth.warning ∧ isInStartupPhase = false then 15
  else 0

/-- CPU usage block (part_005 lines 616–620). -/
def cpuPenalty (m : StreamQualityMetrics) : ℚ :=
  if m.cpuUsage > 90 then 15 else 0

/-- GPU usage block (part_005 lines 622–626); `metrics.gpuUsage &&` is the
JavaScript truthiness guard, equivalent here to the `Option` match because
a present value of `0` fails the `> 95` comparison either way. -/
def gpuPenalty (m : StreamQualityMetrics) : ℚ :=
  match m.gpuUsage with
  | some g => if g > 95 then 10 else 0
  | none => 0

/-- The score accumulator of `calculateStreamHealth`: `score` starts at 100
and each analysis block only ever subtracts from it, so the sequential
`score -= …` statements equal this difference. -/
def rawStreamScore (m : StreamQualityMetrics) (isInStartupPhase : Bool) : ℚ :=
  100 - fpsPenalty m isInStartupPhase - bitratePenalty m isInStartupPhase -
    droppedFramesPenalty m - speedPenalty m isInStartupPhase -
    bufferPenalty m isInStartupPhase - cpuPenalty m - gpuPenalty m

inductive StreamStatus where
  | excellent
  | good
  | degraded
  | poor
  | critical
deriving DecidableEq

/-- Status banding of `calculateStreamHealth` (part_005 lines 628–640). -/
def statusOfScore (score : ℚ) : StreamStatus :=
  if score ≥ 90 then StreamStatus.excellent
  else if score ≥ 75 then StreamStatus.good
  else if score ≥ 60 then StreamStatus.degraded
  else if score ≥ 40 then StreamStatus.poor
  else StreamStatus.critical

structure StreamHealthStatus where
  status : StreamStatus
  score : ℚ
deriving DecidableEq

/-- Embedding of `StreamMonitor.calculateStreamHealth` (part_005 lines
531–649): the status is derived from the raw score, and the returned score
is `Math.max(0, score)` (line 644). -/
def calculateStreamHealth (m : StreamQualityMetrics) (isInStartupPhase : Bool) :
    StreamHealthStatus :=
  let score := rawStreamScore m isInStartupPhase
  { status := statusOfScore score, score := max 0 score }

/-- The metrics snapshot of claim C9: 60 fps, bitrate above the excellent
threshold, zero drops, real-time encoding speed, good buffer, normal
CPU/GPU usage. -/
def excellentSnapshot : StreamQualityMetrics :=
  { frameRate := 60, bitrate := 8500, droppedFrames := 0, encodingSpeed := 1,
    bufferHealth := BufferHealth.good, cpuUsage := 50, gpuUsage := none }

/-! ### Auto-recovery (`src/health/auto-recovery.ts`, class `AutoRecoverySystem`)

Timestamps are milliseconds as `Nat`.  The result of each action's
asynchronous `action()` body is abstracted as `outcome : String → Bool`
(the bodies talk to Discord/ffmpeg and are outside the control plane being
verified); `duration` is recorded as 0 since the clock is held constant
within a call.  The not-awaited `triggerRecovery` calls made by the event
listeners are modelled as running to completion in source order. -/

inductive Severity where
  | low
  | medium
  | high
  | critical
deriving DecidableEq

structure RecoveryActionSpec where
  name : String
  severity : Severity
  cooldownMs : Nat
  maxRetries : Nat
deriving DecidableEq

/-- The static action catalog built by the constructor (auto-recovery.ts
lines 86–256). -/
def recoveryActionCatalog : List RecoveryActionSpec :=
  [⟨"reconnect-discord", Severity.medium, 30000, 3⟩,
   ⟨"reconnect-voice", Severity.medium, 15000, 5⟩,
   ⟨"restart-stream", Severity.high, 60000, 2⟩,
   ⟨"memory-cleanup", Severity.low, 10000, 10⟩,
   ⟨"restart-ffmpeg", Severity.high, 30000, 3⟩,
   ⟨"network-reset", Severity.critical, 120000, 1⟩]

/-- `this.recoveryActions.get(actionName)` (line 430). -/
def lookupAction (name : String) : Option RecoveryActionSpec :=
  recoveryActionCatalog.find? (fun a => a.name == name)

structure RecoveryAttempt where
  actionName : String
  timestamp : Nat
  success : Bool
  duration : Nat
deriving DecidableEq

/-- The `recoveryActions` block of `RecoveryConfig` (lines 29–35). -/
structure RecoveryActionsConfig where
  reconnectDiscord : Bool
  reconnectVoice : Bool
  restartStream : Bool
  clearCache : Bool
  forceGarbageCollection : Bool
deriving DecidableEq

structure RecoveryConfig where
  enabled : Bool
  maxRetriesPerHour : Nat
  criticalErrorThreshold : Nat
  autoRestartThreshold : Nat
  recoveryActions : RecoveryActionsConfig
deriving DecidableEq

/-- The constructor's default config (lines 60–72). -/
def defaultRecoveryConfig : RecoveryConfig :=
  { enabled := true, maxRetriesPerHour := 10, criticalErrorThreshold := 5,
    autoRestartThreshold := 3,
    recoveryActions := ⟨true, true, true, true, true⟩ }

/-- The mutable fields of `AutoRecoverySystem` that the recovery algorithm
reads or writes. -/
structure RecoveryState where
  config : RecoveryConfig
  actionCooldowns : List (String × Nat)
  recoveryHistory : List RecoveryAttempt
  isRecovering : Bool
  consecutiveFailures : Nat
  lastStreamStartTime : Option Nat
deriving DecidableEq

/-- `streamStartupGracePeriodMs` (line 49). -/
def streamStartupGracePeriodMs : Nat := 60000

/-- The grace-window test used at lines 309–311 and 596–601. -/
def isInGracePeriod (st : RecoveryState) (now : Nat) : Bool :=
  match st.lastStreamStartTime with
  | some t => now - t < streamStartupGracePeriodMs
  | none => false

/-- `getRecentRecoveryAttempts` (lines 559–562). -/
def getRecentRecoveryAttempts (history : List RecoveryAttempt)
    (now timeWindowMs : Nat) : List RecoveryAttempt :=
  let cutoff := now - timeWindowMs
  history.filter (fun attempt => cutoff < attempt.timestamp)

/-- `trimRecoveryHistory` (lines 564–569): keep only the last 100 attempts. -/
def trimRecoveryHistory (history : List RecoveryAttempt) : List RecoveryAttempt :=
  if history.length > 100 then history.drop (history.length - 100) else history

/-- JavaScript `actionName.replace("-", "")` with a string pattern replaces
only the first occurrence of `"-"`. -/
def removeFirstHyphen : List Char → List Char
  | [] => []
  | c :: cs => if c = '-' then cs else c :: removeFirstHyphen cs

/-- The per-action config-disable check (lines 437–441): the computed
`configKey` is compared against the keys of `config.recoveryActions`.
(None of the catalog's six names actually maps onto a key — e.g.
`"reconnect-discord"` yields `"reconnectdiscord"`, not
`"reconnectDiscord"` — so this test never disables an action; the model
keeps the comparison as written.) -/
def actionDisabledInConfig (cfg : RecoveryConfig) (actionName : String) : Bool :=
  let configKey : String := ⟨removeFirstHyphen actionName.toList⟩
  if configKey = "reconnectDiscord" then !cfg.recoveryActions.reconnectDiscord
  else if configKey = "reconnectVoice" then !cfg.recoveryActions.reconnectVoice
  else if configKey = "restartStream" then !cfg.recoveryActions.restartStream
  else if configKey = "clearCache" then !cfg.recoveryActions.clearCache
  else if configKey = "forceGarbageCollection" then !cfg.recoveryActions.forceGarbageCollection
  else false

/-- `this.actionCooldowns.set(actionName, now)`. -/
def setCooldown (cooldowns : List (String × Nat)) (name : String) (t : Nat) :
    List (String × Nat) :=
  (name, t) :: cooldowns.filter (fun p => p.1 ≠ name)

/-- The per-action loop of `triggerRecovery` (lines 429–463): skip unknown
actions, skip actions disabled in config, skip actions still inside their
own cooldown, otherwise execute (`executeRecoveryAction`, lines 506–557),
record the attempt and stamp the cooldown. -/
def runRecoveryActions (cfg : RecoveryConfig) (cooldowns : List (String × Nat))
    (now : Nat) (outcome : String → Bool) :
    List String → List (String × Nat) × List RecoveryAttempt
  | [] => (cooldowns, [])
  | actionName :: rest =>
    match lookupAction actionName with
    | none => runRecoveryActions cfg cooldowns now outcome rest
    | some action =>
      if actionDisabledInConfig cfg actionName then
        runRecoveryActions cfg cooldowns now outcome rest
      else
        let lastAttempt := (List.lookup actionName cooldowns).getD 0
        let timeSinceLastAttempt := now - lastAttempt
        if timeSinceLastAttempt < action.cooldownMs then
          runRecoveryActions cfg cooldowns now outcome rest
        else
          let attempt : RecoveryAttempt :=
            { actionName := actionName, timestamp := now,
              success := outcome actionName, duration := 0 }
          let next := runRecoveryActions cfg (setCooldown cooldowns actionName now)
            now outcome rest
          (next.1, attempt :: next.2)

structure RecoveryOutcome where
  state : RecoveryState
  results : List RecoveryAttempt
  /-- `true` when the call reached `process.exit(1)` (line 498). -/
  exited : Bool
deriving DecidableEq

/-- Embedding of `AutoRecoverySystem.triggerRecovery` (lines 397–504):
reject while a recovery is in progress, while disabled, or when the
rolling-hour attempt count has reached `maxRetriesPerHour`; otherwise run
the requested actions, append the attempts to the history, and do the
consecutive-failure bookkeeping of lines 484–503.  `isRecovering` is set
at line 418 and cleared at line 482 within the same call, so it is `false`
again in the resulting state. -/
def triggerRecovery (st : RecoveryState) (now : Nat) (outcome : String → Bool)
    (actionNames : List String) : RecoveryOutcome :=
  if st.isRecovering then { state := st, results := [], exited := false }
  else if !st.config.enabled then { state := st, results := [], exited := false }
  else if (getRecentRecoveryAttempts st.recoveryHistory now 3600000).length ≥
      st.config.maxRetriesPerHour then
    { state := st, results := [], exited := false }
  else
    let run := runRecoveryActions st.config st.actionCooldowns now outcome actionNames
    let history := trimRecoveryHistory (st.recoveryHistory ++ run.2)
    let successCount := (run.2.filter (fun r => r.success)).length
    let totalCount := run.2.length
    if successCount = 0 ∧ totalCount > 0 then
      -- lines 485–499: full-batch failure
      let failures := st.consecutiveFailures + 1
      { state := { st with
          actionCooldowns := run.1
          recoveryHistory := history
          isRecovering := false
          consecutiveFailures := failures }
        results := run.2
        exited := decide (failures ≥ st.config.autoRestartThreshold) }
    else if successCount > 0 then
      -- lines 500–503: partial or full success, `Math.max(0, failures - 1)`
      { state := { st with
          actionCooldowns := run.1
          recoveryHistory := history
          isRecovering := false
          consecutiveFailures := st.consecutiveFailures - 1 }
        results := run.2
        exited := false }
    else
      { state := { st with
          actionCooldowns := run.1
          recoveryHistory := history
          isRecovering := false }
        results := run.2
        exited := false }

inductive CheckStatus where
  | pass
  | warn
  | fail
deriving DecidableEq

inductive HealthLevel where
  | healthy
  | degraded
  | unhealthy
deriving DecidableEq

/-- The fields of a `HealthCheckResult` that `analyzeHealthAndRecover`
reads: the overall status and the `discord`/`voice`/`stream`/`ffmpeg`/
`memory` entries of the checks map (absent entries are `none`, mirroring
the `?.` accesses). -/
structure HealthCheckResult where
  status : HealthLevel
  discord : Option CheckStatus
  voice : Option CheckStatus
  stream : Option CheckStatus
  ffmpeg : Option CheckStatus
  memory : Option CheckStatus
deriving DecidableEq

/-- Embedding of `AutoRecoverySystem.analyzeHealthAndRecover` (lines
303–395): inside the startup grace window everything is suppressed except
a Discord reconnect for an unhealthy result whose discord check failed;
outside it, failing checks are mapped to an action list, with a
`network-reset` escalation once `consecutiveFailures` reaches
`criticalErrorThreshold`. -/
def analyzeHealthAndRecover (st : RecoveryState) (now : Nat)
    (outcome : String → Bool) (result : HealthCheckResult) : RecoveryOutcome :=
  if st.isRecovering then { state := st, results := [], exited := false }
  else if isInGracePeriod st now then
    if result.status = HealthLevel.unhealthy ∧ result.discord = some CheckStatus.fail then
      triggerRecovery st now outcome ["reconnect-discord"]
    else { state := st, results := [], exited := false }
  else
    match result.status with
    | HealthLevel.healthy =>
      { state := { st with consecutiveFailures := 0 }, results := [], exited := false }
    | HealthLevel.unhealthy =>
      let st := { st with consecutiveFailures := st.consecutiveFailures + 1 }
      let actions :=
        (if result.discord = some CheckStatus.fail then ["reconnect-discord"] else []) ++
        (if result.voice = some CheckStatus.fail then ["reconnect-voice"] else []) ++
        (if result.stream = some CheckStatus.fail then ["restart-stream"] else []) ++
        (if result.ffmpeg = some CheckStatus.fail then ["restart-ffmpeg"] else []) ++
        (if result.memory = some CheckStatus.fail then ["memory-cleanup"] else [])
      let actions := actions ++
        (if st.consecutiveFailures ≥ st.config.criticalErrorThreshold
         then ["network-reset"] else [])
      if actions.length > 0 then triggerRecovery st now outcome actions
      else { state := st, results := [], exited := false }
    | HealthLevel.degraded =>
      let st := { st with consecutiveFailures := st.consecutiveFailures + 1 }
      let actions :=
        (if result.memory = some CheckStatus.warn then ["memory-cleanup"] else [])
      let actions := actions ++
        (if st.consecutiveFailures ≥ st.config.criticalErrorThreshold
         then ["network-reset"] else [])
      if actions.length > 0 then triggerRecovery st now outcome actions
      else { state := st, results := [], exited := false }

/-- The trigger sources wired up by `setupHealthMonitoring` (lines
258–301). -/
inductive HealthTrigger where
  | healthCheckCompleted (result : HealthCheckResult)
  | discordDisconnected
  | discordError
  | criticalError
  /-- a `metrics-updated` event carrying `memoryUsage.rss` in bytes. -/
  | metricsUpdatedRss (rssBytes : Nat)
deriving DecidableEq

/-- Embedding of the event listeners registered by `setupHealthMonitoring`
(lines 258–301).  When the system is constructed disabled, no listeners
are registered at all (lines 259–262), hence the `enabled` gate.  The
memory comparisons `rss / 1024 / 1024 > 1500` and `> 2500` are exact for
byte counts, so they appear here multiplied out. -/
def handleHealthEvent (st : RecoveryState) (now : Nat) (outcome : String → Bool) :
    HealthTrigger → RecoveryOutcome
  | HealthTrigger.healthCheckCompleted result =>
    if !st.config.enabled then { state := st, results := [], exited := false }
    else analyzeHealthAndRecover st now outcome result
  | HealthTrigger.discordDisconnected =>
    if !st.config.enabled then { state := st, results := [], exited := false }
    else triggerRecovery st now outcome ["reconnect-discord"]
  | HealthTrigger.discordError =>
    if !st.config.enabled then { state := st, results := [], exited := false }
    else
      let st := { st with consecutiveFailures := st.consecutiveFailures + 1 }
      if st.consecutiveFailures ≥ 3 then
        triggerRecovery st now outcome ["memory-cleanup", "reconnect-discord"]
      else { state := st, results := [], exited := false }
  | HealthTrigger.criticalError =>
    if !st.config.enabled then { state := st, results := [], exited := false }
    else triggerRecovery st now outcome ["memory-cleanup", "restart-ffmpeg", "network-reset"]
  | HealthTrigger.metricsUpdatedRss rssBytes =>
    if !st.config.enabled then { state := st, results := [], exited := false }
    else
      let out1 :=
        if rssBytes > 1500 * 1048576 then
          triggerRecovery st now outcome ["memory-cleanup"]
        else { state := st, results := [], exited := false }
      if rssBytes > 2500 * 1048576 then
        let out2 := triggerRecovery out1.state now outcome
          ["memory-cleanup", "restart-stream"]
        { state := out2.state, results := out1.results ++ out2.results,
          exited := out1.exited || out2.exited }
      else out1

/-- Embedding of `AutoRecoverySystem.forceRecovery` (lines 643–662): filter
to known actions (throwing, modelled as `none`, when none remain), snapshot
the cooldown table, clear it, run `triggerRecovery`, restore the snapshot,
and return the last `validActions.length` history entries. -/
def forceRecovery (st : RecoveryState) (now : Nat) (outcome : String → Bool)
    (actionNames : List String) :
    Option (RecoveryOutcome × List RecoveryAttempt) :=
  let validActions := actionNames.filter (fun name => (lookupAction name).isSome)
  if validActions.length = 0 then none
  else
    let originalCooldowns := st.actionCooldowns
    let stCleared := { st with actionCooldowns := [] }
    let out := triggerRecovery stCleared now outcome validActions
    let stRestored := { out.state with actionCooldowns := originalCooldowns }
    some ({ out with state := stRestored },
      stRestored.recoveryHistory.drop
        (stRestored.recoveryHistory.length - validActions.length))

/-- A fresh `AutoRecoverySystem` state under the default config. -/
def freshRecoveryState : RecoveryState :=
  { config := defaultRecoveryConfig, actionCooldowns := [], recoveryHistory := [],
    isRecovering := false, consecutiveFailures := 0, lastStreamStartTime := none }

/-! ### Helper lemmas -/

theorem jsRound_nonneg {q : ℚ} (h : 0 ≤ q) : 0 ≤ jsRound q := by
  unfold jsRound
  exact Int.le_floor.2 (by push_cast; linarith)

theorem le_jsRound_scale {t : ℤ} (h : 0 ≤ t) : t ≤ jsRound ((t : ℚ) * (13/10)) := by
  unfold jsRound
  apply Int.le_floor.2
  have h' : (0 : ℚ) ≤ (t : ℚ) := by exact_mod_cast h
  linarith

/-! ### Claim theorems -/

/-- C2: for every probe result (positive width and height, any fps) and
either hardware-acceleration flag, `generateOptimalSettings` returns even
width and height, an fps in [15, 120], and `maxBitrateKbps ≥ bitrateKbps`. -/
theorem C2_profile_validity (w h : Nat) (fps : ℚ) (hw : Bool)
    (hwpos : 0 < w) (hhpos : 0 < h) :
    (generateOptimalSettings ⟨w, h, fps⟩ hw).width % 2 = 0 ∧
    (generateOptimalSettings ⟨w, h, fps⟩ hw).height % 2 = 0 ∧
    15 ≤ (generateOptimalSettings ⟨w, h, fps⟩ hw).fps ∧
    (generateOptimalSettings ⟨w, h, fps⟩ hw).fps ≤ 120 ∧
    (generateOptimalSettings ⟨w, h, fps⟩ hw).bitrateKbps ≤
      (generateOptimalSettings ⟨w, h, fps⟩ hw).maxBitrateKbps := by
  simp only [generateOptimalSettings]
  refine ⟨?_, ?_, ?_, ?_, ?_⟩
  · split_ifs <;> omega
  · split_ifs <;> omega
  · split_ifs with h1 h2 h3 h4 <;> try norm_num
    have := lt_of_lt_of_le h3 (min_le_left fps 60)
    linarith
  · split_ifs with h1 h2 h3 h4 <;> norm_num
  · refine le_jsRound_scale (jsRound_nonneg (mul_nonneg ?_ ?_)) <;>
      split_ifs <;> norm_num

/-- C2 witness. -/
theorem C2_profile_validity_witness :
    0 < 1920 ∧ 0 < 1080 ∧
    ((generateOptimalSettings ⟨1920, 1080, 30⟩ false).width % 2 = 0 ∧
     (generateOptimalSettings ⟨1920, 1080, 30⟩ false).height % 2 = 0 ∧
     15 ≤ (generateOptimalSettings ⟨1920, 1080, 30⟩ false).fps ∧
     (generateOptimalSettings ⟨1920, 1080, 30⟩ false).fps ≤ 120 ∧
     (generateOptimalSettings ⟨1920, 1080, 30⟩ false).bitrateKbps ≤
       (generateOptimalSettings ⟨1920, 1080, 30⟩ false).maxBitrateKbps) :=
  ⟨by decide, by decide,
   C2_profile_validity 1920 1080 30 false (by decide) (by decide)⟩

/-- C3 counterexample: the claim says probe fps ≥ 50 maps to 60, but the
code's first bucket test is strict (`targetFps > 50`), so probe fps 50
falls into the `> 40` bucket and maps to 50, not 60. -/
theorem C3_counterexample :
    (50:ℚ) ≥ 50 ∧ (generateOptimalSettings ⟨1920, 1080, 50⟩ false).fps = 50 ∧
      (generateOptimalSettings ⟨1920, 1080, 50⟩ false).fps ≠ 60 := by
  refine ⟨le_refl _, ?_, ?_⟩ <;> simp only [generateOptimalSettings] <;> norm_num [min_def]

/-- C3 (amended): `generateOptimalSettings` buckets the probed fps as
fps > 50 ↦ 60, 40 < fps ≤ 50 ↦ 50, 30 ≤ fps ≤ 40 ↦ unchanged,
25 < fps < 30 ↦ 30, fps ≤ 25 ↦ 25 (ceiling of 60); in particular 58 ↦ 60,
33 ↦ 33 and 22 ↦ 25. -/
theorem C3_fps_bucketing (a : StreamAnalysis) (hw : Bool) :
    (50 < a.fps → (generateOptimalSettings a hw).fps = 60) ∧
    (40 < a.fps → a.fps ≤ 50 → (generateOptimalSettings a hw).fps = 50) ∧
    (30 ≤ a.fps → a.fps ≤ 40 → (generateOptimalSettings a hw).fps = a.fps) ∧
    (25 < a.fps → a.fps < 30 → (generateOptimalSettings a hw).fps = 30) ∧
    (a.fps ≤ 25 → (generateOptimalSettings a hw).fps = 25) ∧
    (generateOptimalSettings ⟨1920, 1080, 58⟩ hw).fps = 60 ∧
    (generateOptimalSettings ⟨1920, 1080, 33⟩ hw).fps = 33 ∧
    (generateOptimalSettings ⟨1920, 1080, 22⟩ hw).fps = 25 := by
  simp only [generateOptimalSettings]
  refine ⟨?_, ?_, ?_, ?_, ?_, ?_, ?_, ?_⟩
  · intro h
    have hm : 50 < a.fps ⊓ 60 := lt_min h (by norm_num)
    split_ifs with h1 h2 h3 h4 <;> first | rfl | exact absurd hm h1
  · intro h h'
    have hm : a.fps ⊓ 60 = a.fps := min_eq_left (by linarith)
    simp only [hm]
    split_ifs <;> first | rfl | linarith
  · intro h h'
    have hm : a.fps ⊓ 60 = a.fps := min_eq_left (by linarith)
    simp only [hm]
    split_ifs <;> first | rfl | linarith
  · intro h h'
    have hm : a.fps ⊓ 60 = a.fps := min_eq_left (by linarith)
    simp only [hm]
    split_ifs <;> first | rfl | linarith
  · intro h
    have hm : a.fps ⊓ 60 = a.fps := min_eq_left (by linarith)
    simp only [hm]
    split_ifs <;> first | rfl | linarith
  · norm_num [min_def]
  · norm_num [min_def]
  · norm_num [min_def]

/-- C3 witness. -/
theorem C3_fps_bucketing_witness :
    (50:ℚ) < 58 ∧ (generateOptimalSettings ⟨1920, 1080, 58⟩ true).fps = 60 :=
  ⟨by decide, (C3_fps_bucketing ⟨1920, 1080, 58⟩ true).1 (by decide)⟩

/-- C6: for a 3840×2160@60fps probe with hardware acceleration, the planner
emits 2560×1440@60 with bitrate 9600 kbps (6000 base × 1.6) and max
bitrate 12480 kbps (1.3 × 9600). -/
theorem C6_end_to_end :
    (generateOptimalSettings ⟨3840, 2160, 60⟩ true).width = 2560 ∧
    (generateOptimalSettings ⟨3840, 2160, 60⟩ true).height = 1440 ∧
    (generateOptimalSettings ⟨3840, 2160, 60⟩ true).fps = 60 ∧
    (generateOptimalSettings ⟨3840, 2160, 60⟩ true).bitrateKbps = 9600 ∧
    (generateOptimalSettings ⟨3840, 2160, 60⟩ true).maxBitrateKbps = 12480 := by
  refine ⟨?_, ?_, ?_, ?_, ?_⟩ <;>
    simp only [generateOptimalSettings] <;> norm_num [min_def, jsRound]

/-- C1 counterexample: in a `switchTo` over a live previous command, the
new process's output is wired into the downstream sink only after the old
command receives SIGTERM — the sink forwarding (`newOutput.on("data", …)`,
lines 883–902) is registered after `oldCommand.kill("SIGTERM")` (line
865), so the claimed new-output-before-old-termination order is false. -/
theorem C1_counterexample :
    ¬ occursBefore (StreamSwitcher.switchTo ⟨some 0⟩ 1 true).events
      (SwitchEvent.wireSink 1) (SwitchEvent.killOld 0) := by decide

/-- C1 (amended): during every `switchTo` performed while a previous encode
process is live, the new encode process is started before the old process
receives its termination signal, but the new process's output is wired
into the downstream sink only after the old process has been signalled. -/
theorem C1_switch_ordering (st : SwitcherState) (oldId newId : Nat)
    (h : st.currentCommand = some oldId) :
    occursBefore (StreamSwitcher.switchTo st newId true).events
      (SwitchEvent.runNew newId) (SwitchEvent.killOld oldId) ∧
    occursBefore (StreamSwitcher.switchTo st newId true).events
      (SwitchEvent.killOld oldId) (SwitchEvent.wireSink newId) := by
  obtain ⟨c⟩ := st
  subst h
  simp only [StreamSwitcher.switchTo, occursBefore, if_pos]
  constructor <;> simp [List.indexOf_cons]

/-- C1 witness. -/
theorem C1_switch_ordering_witness :
    (⟨some 0⟩ : SwitcherState).currentCommand = some 0 ∧
    (occursBefore (StreamSwitcher.switchTo ⟨some 0⟩ 1 true).events
       (SwitchEvent.runNew 1) (SwitchEvent.killOld 0) ∧
     occursBefore (StreamSwitcher.switchTo ⟨some 0⟩ 1 true).events
       (SwitchEvent.killOld 0) (SwitchEvent.wireSink 1)) :=
  ⟨rfl, C1_switch_ordering ⟨some 0⟩ 0 1 rfl⟩

/-- C5: when starting the replacement process throws, `switchTo` reports
failure, emits no events (in particular no termination signal to any old
process), and leaves the switcher state — including the current command —
unchanged. -/
theorem C5_failed_switch (st : SwitcherState) (newId : Nat) :
    (StreamSwitcher.switchTo st newId false).ok = false ∧
    (StreamSwitcher.switchTo st newId false).state = st ∧
    (StreamSwitcher.switchTo st newId false).state.currentCommand =
      st.currentCommand ∧
    ∀ oldId, SwitchEvent.killOld oldId ∉
      (StreamSwitcher.switchTo st newId false).events := by
  simp [StreamSwitcher.switchTo]

theorem fpsPenalty_nonneg (m : StreamQualityMetrics) (s : Bool) :
    0 ≤ fpsPenalty m s := by
  cases s <;> norm_num [fpsPenalty, qualityThresholds] <;> split_ifs <;> try norm_num

theorem bitratePenalty_nonneg (m : StreamQualityMetrics) (s : Bool) :
    0 ≤ bitratePenalty m s := by
  cases s <;> norm_num [bitratePenalty, qualityThresholds] <;> split_ifs <;> try norm_num

theorem droppedFramesPenalty_nonneg (m : StreamQualityMetrics) :
    0 ≤ droppedFramesPenalty m := by
  norm_num [droppedFramesPenalty, qualityThresholds] <;> split_ifs <;> try norm_num

theorem speedPenalty_nonneg (m : StreamQualityMetrics) (s : Bool) :
    0 ≤ speedPenalty m s := by
  cases s <;> norm_num [speedPenalty, qualityThresholds] <;> split_ifs <;> try norm_num

theorem bufferPenalty_nonneg (m : StreamQualityMetrics) (s : Bool) :
    0 ≤ bufferPenalty m s := by
  cases s <;> rcases hb : m.bufferHealth <;>
    norm_num [bufferPenalty, hb] <;> split_ifs <;> try norm_num

theorem cpuPenalty_nonneg (m : StreamQualityMetrics) : 0 ≤ cpuPenalty m := by
  norm_num [cpuPenalty] <;> split_ifs <;> try norm_num

theorem gpuPenalty_nonneg (m : StreamQualityMetrics) : 0 ≤ gpuPenalty m := by
  unfold gpuPenalty
  rcases m.gpuUsage with _ | g <;> simp <;> split_ifs <;> norm_num

theorem statusOfScore_max_zero (q : ℚ) :
    statusOfScore (max 0 q) = statusOfScore q := by
  rcases le_or_lt 0 q with h | h
  · rw [max_eq_right h]
  · rw [max_eq_left h.le]
    unfold statusOfScore
    split_ifs <;> first | rfl | linarith

/-- C9: for every metrics snapshot (in either monitoring phase) the
computed health score lies in [0, 100] and the status is the banding of
that score (≥90 excellent, ≥75 good, ≥60 degraded, ≥40 poor, else
critical); the snapshot with 60 fps, bitrate above the excellent
threshold, zero drops, real-time speed, good buffer and normal CPU/GPU
usage is rated excellent. -/
theorem C9_score_bounds (m : StreamQualityMetrics) (startup : Bool) :
    (0 ≤ (calculateStreamHealth m startup).score ∧
     (calculateStreamHealth m startup).score ≤ 100 ∧
     (calculateStreamHealth m startup).status =
       statusOfScore ((calculateStreamHealth m startup).score)) ∧
    (calculateStreamHealth excellentSnapshot false).status =
      StreamStatus.excellent := by
  refine ⟨⟨le_max_left _ _, ?_, ?_⟩, ?_⟩
  · apply max_le (by norm_num)
    have h1 := fpsPenalty_nonneg m startup
    have h2 := bitratePenalty_nonneg m startup
    have h3 := droppedFramesPenalty_nonneg m
    have h4 := speedPenalty_nonneg m startup
    have h5 := bufferPenalty_nonneg m startup
    have h6 := cpuPenalty_nonneg m
    have h7 := gpuPenalty_nonneg m
    unfold rawStreamScore
    linarith
  · show statusOfScore _ = statusOfScore (max 0 _)
    exact (statusOfScore_max_zero _).symm
  · have e1 : fpsPenalty excellentSnapshot false = 0 := by
      norm_num [fpsPenalty, excellentSnapshot, qualityThresholds]
    have e2 : bitratePenalty excellentSnapshot false = 0 := by
      norm_num [bitratePenalty, excellentSnapshot, qualityThresholds]
    have e3 : droppedFramesPenalty excellentSnapshot = 0 := by
      norm_num [droppedFramesPenalty, excellentSnapshot, qualityThresholds]
    have e4 : speedPenalty excellentSnapshot false = 0 := by
      norm_num [speedPenalty, excellentSnapshot, qualityThresholds]
    have e5 : bufferPenalty excellentSnapshot false = 0 := by
      simp [bufferPenalty, excellentSnapshot]
    have e6 : cpuPenalty excellentSnapshot = 0 := by
      norm_num [cpuPenalty, excellentSnapshot]
    have e7 : gpuPenalty excellentSnapshot = 0 := by
      simp [gpuPenalty, excellentSnapshot]
    norm_num [calculateStreamHealth, rawStreamScore, e1, e2, e3, e4, e5, e6,
      e7, statusOfScore]

theorem runRecoveryActions_name_mem (cfg : RecoveryConfig) (now : Nat)
    (outcome : String → Bool) :
    ∀ (names : List String) (cooldowns : List (String × Nat)),
      ∀ a ∈ (runRecoveryActions cfg cooldowns now outcome names).2,
        a.actionName ∈ names := by
  intro names
  induction names with
  | nil => intro cooldowns a ha; simp [runRecoveryActions] at ha
  | cons n rest ih =>
    intro cooldowns a ha
    rw [runRecoveryActions] at ha
    rcases hl : lookupAction n with _ | act <;> simp only [hl] at ha
    · exact List.mem_cons_of_mem _ (ih cooldowns a ha)
    · split_ifs at ha with h1 h2
      · exact List.mem_cons_of_mem _ (ih cooldowns a ha)
      · exact List.mem_cons_of_mem _ (ih cooldowns a ha)
      · simp only [List.mem_cons] at ha
        rcases ha with rfl | hmem
        · exact List.mem_cons_self _ _
        · exact List.mem_cons_of_mem _ (ih _ a hmem)

theorem triggerRecovery_name_mem (st : RecoveryState) (now : Nat)
    (outcome : String → Bool) (names : List String) :
    ∀ a ∈ (triggerRecovery st now outcome names).results,
      a.actionName ∈ names := by
  intro a ha
  simp only [triggerRecovery] at ha
  split_ifs at ha <;>
    first
      | exact runRecoveryActions_name_mem st.config now outcome names
          st.actionCooldowns a ha
      | exact absurd ha (by simp)

/-- A recovery state inside its stream-startup grace window at the times
used below. -/
def graceRecoveryState : RecoveryState :=
  { freshRecoveryState with lastStreamStartTime := some 100000000 }

/-- C4 counterexample: a memory-threshold trigger (1600 MB > 1500 MB
warning) raised 10 s into the grace window executes `memory-cleanup`,
which is not a connection-level reconnect — the grace-window check exists
only in `analyzeHealthAndRecover`, and the `metrics-updated`,
`discord-disconnected`, `discord-error` and `critical-error` listeners
call `triggerRecovery` without it. -/
theorem C4_counterexample :
    isInGracePeriod graceRecoveryState 100010000 = true ∧
    (handleHealthEvent graceRecoveryState 100010000 (fun _ => true)
        (HealthTrigger.metricsUpdatedRss (1600 * 1048576))).results.map
      (fun a => a.actionName) = ["memory-cleanup"] ∧
    ¬ ("memory-cleanup" = "reconnect-discord" ∨
       "memory-cleanup" = "reconnect-voice") := by
  refine ⟨by decide, by decide, by decide⟩

/-- C4 (amended): suppression of recovery requests inside the startup grace
window applies to the health-check-completion trigger source, where the
only action that can execute is the connection-level `reconnect-discord`;
the other trigger sources (disconnect events, consecutive-error counters,
memory thresholds) are not grace-suppressed. -/
theorem C4_grace_suppression (st : RecoveryState) (now : Nat)
    (outcome : String → Bool) (result : HealthCheckResult)
    (h : isInGracePeriod st now = true) :
    ∀ a ∈ (handleHealthEvent st now outcome
        (HealthTrigger.healthCheckCompleted result)).results,
      a.actionName = "reconnect-discord" := by
  intro a ha
  simp only [handleHealthEvent, analyzeHealthAndRecover, h, eq_self_iff_true,
    if_true] at ha
  split_ifs at ha with h1 h2 h3
  · exact absurd ha (by simp)
  · exact absurd ha (by simp)
  · have hm := triggerRecovery_name_mem st now outcome ["reconnect-discord"] a ha
    simpa using hm
  · exact absurd ha (by simp)

/-- C4 witness. -/
theorem C4_grace_suppression_witness :
    isInGracePeriod graceRecoveryState 100010000 = true ∧
    ∀ a ∈ (handleHealthEvent graceRecoveryState 100010000 (fun _ => true)
        (HealthTrigger.healthCheckCompleted
          ⟨HealthLevel.unhealthy, some CheckStatus.fail, none, none, none,
           none⟩)).results,
      a.actionName = "reconnect-discord" :=
  ⟨by decide,
   C4_grace_suppression graceRecoveryState 100010000 (fun _ => true)
     ⟨HealthLevel.unhealthy, some CheckStatus.fail, none, none, none, none⟩
     (by decide)⟩

/-- C7: `triggerRecovery` drops the request — no action executed, no
attempt recorded, state unchanged — when a recovery is already in
progress, when auto-recovery is disabled, or when the attempts in the
preceding rolling hour already number at least `maxRetriesPerHour`. -/
theorem C7_trigger_rejection (st : RecoveryState) (now : Nat)
    (outcome : String → Bool) (actionNames : List String)
    (h : st.isRecovering = true ∨ st.config.enabled = false ∨
      st.config.maxRetriesPerHour ≤
        (getRecentRecoveryAttempts st.recoveryHistory now 3600000).length) :
    triggerRecovery st now outcome actionNames =
      { state := st, results := [], exited := false } := by
  rw [triggerRecovery]
  split_ifs with h1 h2 h3 <;>
    first
      | rfl
      | (exfalso
         rcases h with h | h | h <;> simp_all <;> omega)

/-- A state that already holds ten recovery attempts inside the rolling
hour, under the default `maxRetriesPerHour = 10`. -/
def rateLimitedState : RecoveryState :=
  { freshRecoveryState with
      recoveryHistory :=
        (List.range 10).map (fun i => ⟨"memory-cleanup", 100000000 + i, false, 0⟩) }

/-- C7 witness: the 11th recovery request inside the rolling hour is
rejected without execution. -/
theorem C7_trigger_rejection_witness :
    (rateLimitedState.isRecovering = true ∨
     rateLimitedState.config.enabled = false ∨
     rateLimitedState.config.maxRetriesPerHour ≤
       (getRecentRecoveryAttempts rateLimitedState.recoveryHistory 100000500
         3600000).length) ∧
    triggerRecovery rateLimitedState 100000500 (fun _ => true)
        ["memory-cleanup"] =
      { state := rateLimitedState, results := [], exited := false } :=
  ⟨by decide,
   C7_trigger_rejection rateLimitedState 100000500 (fun _ => true)
     ["memory-cleanup"] (by decide)⟩

/-- First all-fail recovery batch from a fresh state. -/
def c8Batch1 : RecoveryOutcome :=
  triggerRecovery freshRecoveryState 10000000 (fun _ => false) ["memory-cleanup"]

/-- Second consecutive all-fail recovery batch. -/
def c8Batch2 : RecoveryOutcome :=
  triggerRecovery c8Batch1.state 10100000 (fun _ => false) ["memory-cleanup"]

/-- Third consecutive all-fail recovery batch. -/
def c8Batch3 : RecoveryOutcome :=
  triggerRecovery c8Batch2.state 10200000 (fun _ => false) ["memory-cleanup"]

/-- C8: from a zero consecutive-failure counter with
`autoRestartThreshold = 3`, three consecutive fully-failed batches raise
the counter to the threshold and reach `process.exit(1)`, while two do
not; and any batch with at least one successful action decrements the
counter with truncation at zero. -/
theorem C8_escalation :
    (c8Batch1.exited = false ∧ c8Batch2.exited = false ∧
     c8Batch2.state.consecutiveFailures = 2 ∧ c8Batch3.exited = true) ∧
    (∀ (st : RecoveryState) (now : Nat) (outcome : String → Bool)
       (names : List String),
      (∃ r ∈ (triggerRecovery st now outcome names).results, r.success = true) →
      (triggerRecovery st now outcome names).state.consecutiveFailures =
        st.consecutiveFailures - 1 ∧
      (triggerRecovery st now outcome names).exited = false) := by
  constructor
  · exact ⟨by decide, by decide, by decide, by decide⟩
  · intro st now outcome names h
    obtain ⟨r, hr, hs⟩ := h
    simp only [triggerRecovery] at hr ⊢
    split_ifs at hr ⊢ with h1 h2 h3 h4 h5
    · exact absurd hr (by simp)
    · exact absurd hr (by simp)
    · exact absurd hr (by simp)
    · exfalso
      have hzero := h4.1
      rw [List.length_eq_zero] at hzero
      have := List.mem_filter.2 ⟨hr, by simpa using hs⟩
      rw [hzero] at this
      exact absurd this (List.not_mem_nil r)
    · exact ⟨rfl, rfl⟩
    · exfalso
      apply h5
      have := List.mem_filter.2 ⟨hr, by simpa using hs⟩
      exact List.length_pos.2 (List.ne_nil_of_mem this)

/-- C8 witness (for the decrement clause). -/
theorem C8_escalation_witness :
    (∃ r ∈ (triggerRecovery c8Batch2.state 10300000 (fun _ => true)
        ["memory-cleanup"]).results, r.success = true) ∧
    ((triggerRecovery c8Batch2.state 10300000 (fun _ => true)
        ["memory-cleanup"]).state.consecutiveFailures =
      c8Batch2.state.consecutiveFailures - 1 ∧
     (triggerRecovery c8Batch2.state 10300000 (fun _ => true)
        ["memory-cleanup"]).exited = false) :=
  ⟨by decide,
   C8_escalation.2 c8Batch2.state 10300000 (fun _ => true) ["memory-cleanup"]
     (by decide)⟩

/-- C10: whenever `forceRecovery` returns (rather than throwing on an
empty valid-action list), the per-action cooldown table of the resulting
state equals exactly the table from before the call: the timestamps
stamped while executing the forced actions were written into the cleared
table, which is then discarded when the snapshot is restored. -/
theorem C10_force_recovery_cooldowns (st : RecoveryState) (now : Nat)
    (outcome : String → Bool) (actionNames : List String)
    (out : RecoveryOutcome) (ret : List RecoveryAttempt)
    (h : forceRecovery st now outcome actionNames = some (out, ret)) :
    out.state.actionCooldowns = st.actionCooldowns := by
  rw [forceRecovery] at h
  split_ifs at h with h1
  simp only [Option.some.injEq, Prod.mk.injEq] at h
  exact congrArg (fun o => o.state.actionCooldowns) h.1.symm

/-- A state carrying a live cooldown entry, for the C10 witness. -/
def c10State : RecoveryState :=
  { freshRecoveryState with actionCooldowns := [("restart-stream", 9999000)] }

/-- C10 witness: forcing `memory-cleanup` stamps a cooldown internally,
yet the table afterwards equals the one from before the call. -/
theorem C10_force_recovery_cooldowns_witness :
    forceRecovery c10State 10000000 (fun _ => true) ["memory-cleanup"] =
      some
        ({ state :=
             { config := defaultRecoveryConfig
               actionCooldowns := [("restart-stream", 9999000)]
               recoveryHistory := [⟨"memory-cleanup", 10000000, true, 0⟩]
               isRecovering := false
               consecutiveFailures := 0
               lastStreamStartTime := none }
           results := [⟨"memory-cleanup", 10000000, true, 0⟩]
           exited := false },
         [⟨"memory-cleanup", 10000000, true, 0⟩]) ∧
    ({ config := defaultRecoveryConfig
       actionCooldowns := [("restart-stream", 9999000)]
       recoveryHistory := [⟨"memory-cleanup", 10000000, true, 0⟩]
       isRecovering := false
       consecutiveFailures := 0
       lastStreamStartTime := none } : RecoveryState).actionCooldowns =
      c10State.actionCooldowns :=
  ⟨by decide,
   C10_force_recovery_cooldowns c10State 10000000 (fun _ => true)
     ["memory-cleanup"]
     { state :=
         { config := defaultRecoveryConfig
           actionCooldowns := [("restart-stream", 9999000)]
           recoveryHistory := [⟨"memory-cleanup", 10000000, true, 0⟩]
           isRecovering := false
           consecutiveFailures := 0
           lastStreamStartTime := none }
       results := [⟨"memory-cleanup", 10000000, true, 0⟩]
       exited := false }
     [⟨"memory-cleanup", 10000000, true, 0⟩] (by decide)⟩
